import Mathlib

/-!
Verification of the Discord GitHub-webhook bot storage and configuration layer.

Shallow embedding of:
  src/bot/storage/database.py      (schema constraints)
  src/bot/storage/repositories.py  (GuildRepository, RepositoryRepository,
                                    SubscriptionRepository, EventLogRepository)
  src/bot/core/config.py           (BotConfig.from_env, get_config, reload_config)
  src/bot/utils/formatting.py      (truncate)

SQLite tables are modelled as Lean lists of row structures; AUTOINCREMENT ids
are carried as an explicit nextId counter.  Timestamps are modelled as Nat
(the SQL layer only stores and orders them).  The TEXT column enabled_events
holds a JSON-serialized list of event-kind strings; the SQL layer treats it
opaquely, so the embedding carries the deserialized list of strings directly.
-/

namespace DiscordBot

/-- A row of the subscriptions table
(database.py, initialize_schema, lines 71-84).  The schema declares
UNIQUE(guild_id, repository_id, channel_id) over all rows. -/
structure SubscriptionRow where
  id : Nat
  guild_id : Nat
  repository_id : Nat
  channel_id : Nat
  enabled_events : List String
  created_at : Nat
  is_active : Bool
deriving DecidableEq

/-- The subscriptions table state: its rows in insertion order plus the
AUTOINCREMENT counter. -/
structure SubsState where
  rows : List SubscriptionRow
  nextId : Nat
deriving DecidableEq

/-- The Bool test of the SQL UNIQUE(guild_id, repository_id, channel_id)
constraint against one existing row. -/
def tripleClash (g r c : Nat) (row : SubscriptionRow) : Bool :=
  row.guild_id == g && row.repository_id == r && row.channel_id == c

/-- SubscriptionRepository.create (repositories.py lines 137-157): a plain
INSERT INTO subscriptions with no ON CONFLICT clause.  When the
UNIQUE(guild_id, repository_id, channel_id) constraint of the schema is
violated, SQLite raises an IntegrityError, surfaced here as Except.error;
otherwise the row is appended and the new AUTOINCREMENT id returned
(get_last_insert_id). -/
def subsCreate (st : SubsState) (g r c : Nat) (ev : List String) (t : Nat)
    (act : Bool) : Except String (SubsState × Nat) :=
  if st.rows.any (tripleClash g r c) then
    Except.error "UNIQUE constraint failed: subscriptions.guild_id, subscriptions.repository_id, subscriptions.channel_id"
  else
    Except.ok
      ({ rows := st.rows ++ [⟨st.nextId, g, r, c, ev, t, act⟩],
         nextId := st.nextId + 1 }, st.nextId)

/-- SubscriptionRepository.delete (repositories.py lines 206-212):
UPDATE subscriptions SET is_active = 0 WHERE id = subscription_id. -/
def subsDelete (st : SubsState) (sid : Nat) : SubsState :=
  { st with
    rows := st.rows.map (fun row =>
      if row.id = sid then { row with is_active := false } else row) }

/-- SubscriptionRepository.get_by_repository (repositories.py lines 214-232):
SELECT * FROM subscriptions WHERE repository_id = ? AND is_active = 1. -/
def get_by_repository (st : SubsState) (rid : Nat) : List SubscriptionRow :=
  st.rows.filter (fun row => row.repository_id == rid && row.is_active)

/-- SubscriptionRepository.get_by_guild (repositories.py lines 186-204):
SELECT * FROM subscriptions WHERE guild_id = ? AND is_active = 1. -/
def get_by_guild (st : SubsState) (gid : Nat) : List SubscriptionRow :=
  st.rows.filter (fun row => row.guild_id == gid && row.is_active)

/-- The operations the subscription store exposes: create, soft delete,
and the SELECT-only reads. -/
inductive SubOp where
  | create (g r c : Nat) (ev : List String) (t : Nat) (act : Bool)
  | delete (sid : Nat)
  | getByRepository (rid : Nat)
  | getByGuild (gid : Nat)

/-- Effect of one operation on the subscriptions table.  A create whose
INSERT violates the UNIQUE constraint raises and leaves the table
unchanged; reads never write. -/
def applySubOp (st : SubsState) : SubOp → SubsState
  | SubOp.create g r c ev t act =>
      match subsCreate st g r c ev t act with
      | Except.ok (st2, _) => st2
      | Except.error _ => st
  | SubOp.delete sid => subsDelete st sid
  | SubOp.getByRepository _ => st
  | SubOp.getByGuild _ => st

/-- The empty subscriptions table, as created by initialize_schema. -/
def initialSubsState : SubsState := ⟨[], 1⟩

/-- Running a sequence of subscription-store operations from the empty
table. -/
def runSubOps (ops : List SubOp) : SubsState :=
  ops.foldl applySubOp initialSubsState

/-- No two distinct row positions hold the same
(guild_id, repository_id, channel_id) triple. -/
def tripleUnique (st : SubsState) : Prop :=
  st.rows.Pairwise (fun a b =>
    ¬(a.guild_id = b.guild_id ∧ a.repository_id = b.repository_id ∧
      a.channel_id = b.channel_id))

/-- At most one active subscription row per
(guild_id, repository_id, channel_id) triple. -/
def atMostOneActive (st : SubsState) : Prop :=
  st.rows.Pairwise (fun a b =>
    a.is_active = true → b.is_active = true →
    ¬(a.guild_id = b.guild_id ∧ a.repository_id = b.repository_id ∧
      a.channel_id = b.channel_id))

/-- A row of the repositories table
(database.py, initialize_schema, lines 59-68), with UNIQUE(owner, name). -/
structure RepoRow where
  id : Nat
  owner : String
  name : String
  url : String
  created_at : Nat
deriving DecidableEq

/-- The repositories table state: rows in insertion order plus the
AUTOINCREMENT counter. -/
structure RepoState where
  rows : List RepoRow
  nextId : Nat
deriving DecidableEq

/-- The Bool test of WHERE owner = ? AND name = ? against one row. -/
def ownerNameMatch (owner name : String) (row : RepoRow) : Bool :=
  row.owner == owner && row.name == name

/-- RepositoryRepository.get_by_full_name (repositories.py lines 96-111):
SELECT * FROM repositories WHERE owner = ? AND name = ?, via fetch_one
(first matching row). -/
def get_by_full_name (st : RepoState) (owner name : String) : Option RepoRow :=
  st.rows.find? (ownerNameMatch owner name)

/-- RepositoryRepository.create (repositories.py lines 75-94):
INSERT INTO repositories ... ON CONFLICT(owner, name) DO NOTHING, then
SELECT id FROM repositories WHERE owner = ? AND name = ?.  Returns the
updated table and the id the fetch produced (None only if the row is
somehow absent). -/
def reposCreate (st : RepoState) (owner name url : String) (t : Nat) :
    RepoState × Option Nat :=
  let st2 :=
    if st.rows.any (ownerNameMatch owner name) then st
    else { rows := st.rows ++ [⟨st.nextId, owner, name, url, t⟩],
           nextId := st.nextId + 1 }
  (st2, (st2.rows.find? (ownerNameMatch owner name)).map (fun row => row.id))

/-- A row of the event_logs table
(database.py, initialize_schema, lines 87-101). -/
structure EventLogRow where
  event_id : Nat
  event_type : String
  repository_id : Nat
  guild_id : Nat
  channel_id : Nat
  delivered_at : Nat
  payload_hash : Option String
  success : Bool
  error_message : Option String
deriving DecidableEq

/-- The event_logs table state. -/
structure LogState where
  rows : List EventLogRow
  nextId : Nat
deriving DecidableEq

/-- EventLogRepository.create (repositories.py lines 241-263): a plain
INSERT INTO event_logs, then get_last_insert_id for the returned event_id. -/
def eventLogCreate (st : LogState) (event_type : String)
    (rid gid cid t : Nat) (h : Option String) (succ : Bool)
    (err : Option String) : LogState × Nat :=
  ({ rows := st.rows ++ [⟨st.nextId, event_type, rid, gid, cid, t, h, succ, err⟩],
     nextId := st.nextId + 1 }, st.nextId)

/-- EventLogRepository.get_recent (repositories.py lines 265-285):
SELECT * FROM event_logs ORDER BY delivered_at DESC LIMIT ?. -/
def get_recent (st : LogState) (limit : Nat) : List EventLogRow :=
  (st.rows.insertionSort (fun a b => b.delivered_at ≤ a.delivered_at)).take limit

/-- The operations EventLogRepository exposes: create (an INSERT) and
get_recent (a SELECT). -/
inductive LogOp where
  | create (event_type : String) (rid gid cid t : Nat) (h : Option String)
      (succ : Bool) (err : Option String)
  | getRecent (limit : Nat)

/-- Effect of one EventLogRepository operation on the event_logs table;
get_recent is a read and leaves the table unchanged. -/
def applyLogOp (st : LogState) : LogOp → LogState
  | LogOp.create ety rid gid cid t h succ err =>
      (eventLogCreate st ety rid gid cid t h succ err).1
  | LogOp.getRecent _ => st

/-- Effect of a sequence of EventLogRepository operations. -/
def applyLogOps (st : LogState) (ops : List LogOp) : LogState :=
  ops.foldl applyLogOp st

/-- Modelled from the spec: the webhook-server pipeline operation
matchingSubscriptions(repositoryFullName, eventKind) is described in
section 4.3 of the spec but its source file is absent from the repository
(the spec itself notes no webhook-server source file was present).  It is
built here from the two source functions the pipeline uses, resolving the
repository by full name via RepositoryRepository.get_by_full_name, reading
active subscriptions via SubscriptionRepository.get_by_repository, and
keeping, per the spec, only subscriptions whose enabled-event-kind set
contains the event kind. -/
def matchingSubscriptions (rst : RepoState) (sst : SubsState)
    (owner name kind : String) : List SubscriptionRow :=
  match get_by_full_name rst owner name with
  | none => []
  | some repo =>
      (get_by_repository sst repo.id).filter
        (fun s => s.enabled_events.contains kind)

/-- The process environment, as the list of (name, value) pairs os.getenv
reads from. -/
def Env : Type := List (String × String)

/-- os.getenv with no default: the value of the first binding of the name,
or none when unset. -/
def getenv (env : Env) (k : String) : Option String :=
  (env.find? (fun p => p.1 == k)).map (fun p => p.2)

/-- os.getenv with a default value. -/
def getenvD (env : Env) (k d : String) : String :=
  (getenv env k).getD d

/-- Truthiness of `not x` on an optional string in Python: None and the
empty string are falsy. -/
def pyFalsy : Option String → Bool
  | none => true
  | some s => s == ""

/-- Decimal digit run for pyInt: none when empty or containing a
non-digit. -/
def parseNatDigits (cs : List Char) : Option Nat :=
  if cs.isEmpty then none
  else cs.foldl (fun acc c => acc.bind (fun n =>
    if c.isDigit then some (n * 10 + (c.toNat - 48)) else none)) (some 0)

/-- The Python builtin int() on a decimal string (as config.py applies it
to WEBHOOK_PORT): an optional sign followed by at least one digit;
anything else raises, modelled as none. -/
def pyInt (s : String) : Option Int :=
  match s.data with
  | [] => none
  | c :: cs =>
      if c = '-' then (parseNatDigits cs).map (fun n => -(n : Int))
      else if c = '+' then (parseNatDigits cs).map (fun n => (n : Int))
      else (parseNatDigits (c :: cs)).map (fun n => (n : Int))

/-- The Python str.lower() method, characterwise. -/
def pyLower (s : String) : String := ⟨s.data.map Char.toLower⟩

/-- The BotConfig dataclass (config.py lines 12-34).  webhook_port is an
Int as produced by int(). -/
structure BotConfig where
  token : String
  application_id : String
  webhook_secret : String
  webhook_host : String
  webhook_port : Int
  database_url : String
  log_level : String
  log_format : String
  debug_mode : Bool
  sync_commands_on_ready : Bool
deriving DecidableEq

/-- BotConfig.from_env (config.py lines 36-78): reads the environment,
raises ValueError (modelled as Except.error) when a required variable is
unset or empty, fills the rest with defaults.  int() on a non-numeric
WEBHOOK_PORT also raises. -/
def from_env (env : Env) : Except String BotConfig :=
  let token := getenv env "DISCORD_BOT_TOKEN"
  let application_id := getenv env "DISCORD_APPLICATION_ID"
  let webhook_secret := getenv env "GITHUB_WEBHOOK_SECRET"
  if pyFalsy token then Except.error "DISCORD_BOT_TOKEN is required"
  else if pyFalsy application_id then
    Except.error "DISCORD_APPLICATION_ID is required"
  else if pyFalsy webhook_secret then
    Except.error "GITHUB_WEBHOOK_SECRET is required"
  else
    match pyInt (getenvD env "WEBHOOK_PORT" "8000") with
    | none => Except.error "invalid literal for int() with base 10"
    | some port =>
        Except.ok
          { token := token.getD ""
            application_id := application_id.getD ""
            webhook_secret := webhook_secret.getD ""
            webhook_host := getenvD env "WEBHOOK_HOST" "0.0.0.0"
            webhook_port := port
            database_url := getenvD env "DATABASE_URL" "sqlite:///data/bot.db"
            log_level := getenvD env "LOG_LEVEL" "INFO"
            log_format := getenvD env "LOG_FORMAT"
              "%(asctime)s | %(levelname)-8s | %(name)s | %(message)s"
            debug_mode := pyLower (getenvD env "DEBUG_MODE" "false") == "true"
            sync_commands_on_ready :=
              pyLower (getenvD env "SYNC_COMMANDS_ON_READY" "true") == "true" }

/-- BotConfig.validate (config.py lines 80-86). -/
def validate (cfg : BotConfig) : Except String Unit :=
  if cfg.webhook_port < 1 || cfg.webhook_port > 65535 then
    Except.error "Invalid webhook port"
  else if !(["DEBUG", "INFO", "WARNING", "ERROR", "CRITICAL"].contains cfg.log_level) then
    Except.error "Invalid log level"
  else Except.ok ()

/-- get_config (config.py lines 93-104).  The module-level _config cell is
the second component of the result; None means not yet loaded.  In the
source, _config is assigned before _config.validate() runs, so a failing
validate still leaves the cell set. -/
def get_config (env : Env) (cell : Option BotConfig) :
    Except String BotConfig × Option BotConfig :=
  match cell with
  | some c => (Except.ok c, some c)
  | none =>
      match from_env env with
      | Except.error e => (Except.error e, none)
      | Except.ok c =>
          match validate c with
          | Except.error e => (Except.error e, some c)
          | Except.ok _ => (Except.ok c, some c)

/-- reload_config (config.py lines 107-112): always re-reads the
environment and overwrites the cell. -/
def reload_config (env : Env) (_cell : Option BotConfig) :
    Except String BotConfig × Option BotConfig :=
  match from_env env with
  | Except.error e => (Except.error e, none)
  | Except.ok c =>
      match validate c with
      | Except.error e => (Except.error e, some c)
      | Except.ok _ => (Except.ok c, some c)

/-- Iterating get_config over a sequence of environments, keeping the
_config cell. -/
def get_config_iter (envs : List Env) (cell : Option BotConfig) :
    Option BotConfig :=
  envs.foldl (fun s e => (get_config e s).2) cell

/-- Python s[:n] on a string, for an Int bound as in text[:max_length -
len(suffix)]: a nonnegative bound keeps the first n characters, a negative
bound drops the last -n. -/
def pySliceTo (s : String) (n : Int) : String :=
  if 0 ≤ n then ⟨s.data.take n.toNat⟩
  else ⟨s.data.take (s.length - (-n).toNat)⟩

/-- truncate (formatting.py lines 10-25). -/
def truncate (text : String) (max_length : Nat := 100)
    (suffix : String := "...") : String :=
  if text.length ≤ max_length then text
  else pySliceTo text ((max_length : Int) - (suffix.length : Int)) ++ suffix

/-! Concrete inputs used by counterexamples and witnesses. -/

/-- A store holding one active subscription for the triple
(guild 1, repository 10, channel 100) with enabled kinds ["push"]. -/
def c1State : SubsState :=
  ⟨[⟨1, 1, 10, 100, ["push"], 0, true⟩], 2⟩

/-- A two-row subscription store. -/
def c6State : SubsState :=
  ⟨[⟨1, 2, 3, 4, ["push"], 0, true⟩, ⟨2, 5, 6, 7, ["issues"], 1, true⟩], 3⟩

/-- A repository store holding acme/widgets with id 1. -/
def c2Repos : RepoState :=
  ⟨[⟨1, "acme", "widgets", "https://github.com/acme/widgets", 0⟩], 2⟩

/-- A subscription store with two active rows on repository 1: channel 100
enabled for pull_request, channel 200 enabled only for push. -/
def c2Subs : SubsState :=
  ⟨[⟨1, 7, 1, 100, ["pull_request", "push"], 0, true⟩,
    ⟨2, 7, 1, 200, ["push"], 0, true⟩], 3⟩

/-- The channel-100 subscription row of c2Subs. -/
def c2Row : SubscriptionRow := ⟨1, 7, 1, 100, ["pull_request", "push"], 0, true⟩

/-- An environment with all three required variables set. -/
def envGood : Env :=
  [("DISCORD_BOT_TOKEN", "tok"), ("DISCORD_APPLICATION_ID", "42"),
   ("GITHUB_WEBHOOK_SECRET", "s3cret")]

/-- An environment where GITHUB_WEBHOOK_SECRET is unset. -/
def envNoSecret : Env :=
  [("DISCORD_BOT_TOKEN", "tok"), ("DISCORD_APPLICATION_ID", "42")]

/-- An environment that differs from envGood in every variable. -/
def envOther : Env :=
  [("DISCORD_BOT_TOKEN", "tok2"), ("DISCORD_APPLICATION_ID", "43"),
   ("GITHUB_WEBHOOK_SECRET", "other")]

/-- The configuration from_env produces on envGood. -/
def cfgGood : BotConfig :=
  { token := "tok"
    application_id := "42"
    webhook_secret := "s3cret"
    webhook_host := "0.0.0.0"
    webhook_port := 8000
    database_url := "sqlite:///data/bot.db"
    log_level := "INFO"
    log_format := "%(asctime)s | %(levelname)-8s | %(name)s | %(message)s"
    debug_mode := false
    sync_commands_on_ready := true }

/-! Helper lemmas. -/

lemma tripleUnique_imp_atMostOneActive {st : SubsState}
    (h : tripleUnique st) : atMostOneActive st :=
  List.Pairwise.imp (fun hne _ _ => hne) h

lemma tripleClash_eq_true_iff {g r c : Nat} {row : SubscriptionRow} :
    tripleClash g r c row = true ↔
      row.guild_id = g ∧ row.repository_id = r ∧ row.channel_id = c := by
  simp [tripleClash, and_assoc]

lemma tripleUnique_applySubOp {st : SubsState} (op : SubOp)
    (h : tripleUnique st) : tripleUnique (applySubOp st op) := by
  cases op with
  | create g r c ev t act =>
      by_cases hc : st.rows.any (tripleClash g r c)
      · simp [applySubOp, subsCreate, hc]
        exact h
      · simp [applySubOp, subsCreate, hc]
        unfold tripleUnique at *
        simp only [List.pairwise_append, List.pairwise_singleton,
          List.mem_singleton]
        refine ⟨h, by simp, ?_⟩
        intro a ha b hb
        subst hb
        simp only [List.any_eq_true, not_exists, not_and, Bool.not_eq_true] at hc
        intro hcontra
        have := hc a ha
        rw [Bool.eq_false_iff] at this
        exact this (tripleClash_eq_true_iff.mpr
          ⟨hcontra.1.symm ▸ rfl, hcontra.2.1.symm ▸ rfl, hcontra.2.2.symm ▸ rfl⟩)
  | delete sid =>
      unfold tripleUnique at *
      simp only [applySubOp, subsDelete]
      refine List.Pairwise.map _ ?_ h
      intro a b hne
      by_cases ha : a.id = sid <;> by_cases hb : b.id = sid <;>
        simp [ha, hb] <;> exact fun h1 h2 h3 => hne ⟨h1, h2, h3⟩
  | getByRepository rid => exact h
  | getByGuild gid => exact h

lemma tripleUnique_foldl (ops : List SubOp) (st : SubsState)
    (h : tripleUnique st) : tripleUnique (ops.foldl applySubOp st) := by
  induction ops generalizing st with
  | nil => exact h
  | cons op rest ih => exact ih _ (tripleUnique_applySubOp op h)

lemma tripleUnique_runSubOps (ops : List SubOp) :
    tripleUnique (runSubOps ops) :=
  tripleUnique_foldl ops initialSubsState
    (by simp [tripleUnique, initialSubsState])

/-! Claim theorems. -/

/-- C1: the spec claims that a second subscribe request for an
already-active (server, repository, channel) triple updates the
enabled-event set in place without error.  In the code,
SubscriptionRepository.create issues a plain INSERT with no ON CONFLICT
clause while the schema declares UNIQUE(guild_id, repository_id,
channel_id), so SQLite raises an IntegrityError and the stored row keeps
the enabled-kind set of the first request, not the most recent one. -/
theorem subsCreate_resubscribe_raises :
    subsCreate c1State 1 10 100 ["issues"] 5 true =
      Except.error "UNIQUE constraint failed: subscriptions.guild_id, subscriptions.repository_id, subscriptions.channel_id" ∧
    get_by_repository c1State 10 = [⟨1, 1, 10, 100, ["push"], 0, true⟩] :=
  ⟨rfl, rfl⟩

/-- C5: in every store state reachable from the empty table by the
subscription-store operations (create, soft delete; reads do not write)
there is at most one active subscription row per (server, repository,
channel) triple. -/
theorem runSubOps_atMostOneActive (ops : List SubOp) :
    atMostOneActive (runSubOps ops) :=
  tripleUnique_imp_atMostOneActive (tripleUnique_runSubOps ops)

/-- C6: SubscriptionRepository.delete is a soft delete: the row count is
unchanged, the row whose id matches keeps every field except that its
active flag is cleared, and every other row is entirely unchanged. -/
theorem subsDelete_soft (st : SubsState) (sid : Nat) :
    (subsDelete st sid).rows.length = st.rows.length ∧
    ∀ i : Fin st.rows.length,
      ∃ hj : i.val < (subsDelete st sid).rows.length,
        ((subsDelete st sid).rows.get ⟨i.val, hj⟩).id = (st.rows.get i).id ∧
        ((subsDelete st sid).rows.get ⟨i.val, hj⟩).guild_id = (st.rows.get i).guild_id ∧
        ((subsDelete st sid).rows.get ⟨i.val, hj⟩).repository_id = (st.rows.get i).repository_id ∧
        ((subsDelete st sid).rows.get ⟨i.val, hj⟩).channel_id = (st.rows.get i).channel_id ∧
        ((subsDelete st sid).rows.get ⟨i.val, hj⟩).enabled_events = (st.rows.get i).enabled_events ∧
        ((subsDelete st sid).rows.get ⟨i.val, hj⟩).created_at = (st.rows.get i).created_at ∧
        ((subsDelete st sid).rows.get ⟨i.val, hj⟩).is_active =
          (if (st.rows.get i).id = sid then false else (st.rows.get i).is_active) := by
  have hlen : (subsDelete st sid).rows.length = st.rows.length := by
    simp [subsDelete]
  refine ⟨hlen, fun i => ⟨by rw [hlen]; exact i.isLt, ?_⟩⟩
  simp only [subsDelete, List.get_eq_getElem, List.getElem_map]
  by_cases hid : (st.rows.get i).id = sid <;>
    simp [List.get_eq_getElem] at hid ⊢ <;> simp [hid]

/-- C7: the delivery log is append-only: any sequence of
EventLogRepository operations (create appends, get_recent reads) leaves
every previously written record present and unchanged, at its original
position. -/
theorem applyLogOps_append_only (st : LogState) (ops : List LogOp) :
    ∃ extra, (applyLogOps st ops).rows = st.rows ++ extra := by
  induction ops generalizing st with
  | nil => exact ⟨[], by simp [applyLogOps]⟩
  | cons op rest ih =>
      have hstep : ∃ extra1, (applyLogOp st op).rows = st.rows ++ extra1 := by
        cases op with
        | create ety rid gid cid t h succ err =>
            exact ⟨_, rfl⟩
        | getRecent limit => exact ⟨[], by simp [applyLogOp]⟩
      obtain ⟨e1, he1⟩ := hstep
      obtain ⟨e2, he2⟩ := ih (applyLogOp st op)
      refine ⟨e1 ++ e2, ?_⟩
      have : applyLogOps st (op :: rest) = applyLogOps (applyLogOp st op) rest := rfl
      rw [this, he2, he1, List.append_assoc]

/-- C2: a subscription row is returned by matchingSubscriptions exactly
when it is stored, active, belongs to the repository resolved by its full
name (owner/name), and its enabled-event-kind set contains the requested
kind: soundness and completeness of the matching read. -/
theorem matchingSubscriptions_sound_complete (rst : RepoState)
    (sst : SubsState) (owner name kind : String) (repo : RepoRow)
    (hrepo : get_by_full_name rst owner name = some repo)
    (s : SubscriptionRow) :
    s ∈ matchingSubscriptions rst sst owner name kind ↔
      s ∈ sst.rows ∧ s.is_active = true ∧ s.repository_id = repo.id ∧
        kind ∈ s.enabled_events := by
  simp only [matchingSubscriptions, hrepo, get_by_repository,
    List.mem_filter, Bool.and_eq_true, beq_iff_eq, List.contains,
    List.elem_iff, decide_eq_true_eq]
  tauto

/-- Witness for C2 at a concrete store: the pull_request subscription of
channel 100 on acme/widgets is matched. -/
theorem matchingSubscriptions_sound_complete_witness :
    get_by_full_name c2Repos "acme" "widgets" =
      some ⟨1, "acme", "widgets", "https://github.com/acme/widgets", 0⟩ ∧
    (c2Row ∈ matchingSubscriptions c2Repos c2Subs "acme" "widgets" "pull_request" ↔
      c2Row ∈ c2Subs.rows ∧ c2Row.is_active = true ∧
        c2Row.repository_id =
          (RepoRow.mk 1 "acme" "widgets" "https://github.com/acme/widgets" 0).id ∧
        "pull_request" ∈ c2Row.enabled_events) :=
  ⟨rfl, matchingSubscriptions_sound_complete c2Repos c2Subs "acme" "widgets"
    "pull_request" ⟨1, "acme", "widgets", "https://github.com/acme/widgets", 0⟩
    rfl c2Row⟩

/-- C3: RepositoryRepository.create is an idempotent upsert on
(owner, name): when a row with that pair exists the table is unchanged and
the pre-existing id is returned; otherwise exactly one row is appended and
its new AUTOINCREMENT id is returned.  Neither case errors. -/
theorem reposCreate_upsert (st : RepoState) (owner name url : String)
    (t : Nat) :
    match get_by_full_name st owner name with
    | some row =>
        (reposCreate st owner name url t).1 = st ∧
        (reposCreate st owner name url t).2 = some row.id
    | none =>
        (reposCreate st owner name url t).1.rows =
          st.rows ++ [⟨st.nextId, owner, name, url, t⟩] ∧
        (reposCreate st owner name url t).2 = some st.nextId := by
  cases hfind : get_by_full_name st owner name with
  | some row =>
      have hfind2 : st.rows.find? (ownerNameMatch owner name) = some row := hfind
      have hmem := List.mem_of_find?_eq_some hfind2
      have hp := List.find?_some hfind2
      have hany : st.rows.any (ownerNameMatch owner name) = true :=
        List.any_eq_true.mpr ⟨row, hmem, hp⟩
      simp [reposCreate, hany, hfind2]
  | none =>
      have hfind2 : st.rows.find? (ownerNameMatch owner name) = none := hfind
      have hany : st.rows.any (ownerNameMatch owner name) = false := by
        rw [Bool.eq_false_iff]
        intro hsome
        obtain ⟨x, hx, hpx⟩ := List.any_eq_true.mp hsome
        rw [List.find?_eq_none] at hfind2
        exact hfind2 x hx hpx
      have hnew : ownerNameMatch owner name ⟨st.nextId, owner, name, url, t⟩ = true := by
        simp [ownerNameMatch]
      simp [reposCreate, hany, hfind2, hnew]

/-- C8: BotConfig.from_env raises when GITHUB_WEBHOOK_SECRET is unset or
empty, and whenever it succeeds the resulting webhook_secret is exactly the
environment-supplied value and is non-empty: no default is substituted. -/
theorem from_env_secret_required (env : Env) :
    (pyFalsy (getenv env "GITHUB_WEBHOOK_SECRET") = true →
      ∃ e, from_env env = Except.error e) ∧
    (∀ cfg, from_env env = Except.ok cfg →
      getenv env "GITHUB_WEBHOOK_SECRET" = some cfg.webhook_secret ∧
        cfg.webhook_secret ≠ "") := by
  constructor
  · intro hfalsy
    by_cases h1 : pyFalsy (getenv env "DISCORD_BOT_TOKEN") = true
    · exact ⟨"DISCORD_BOT_TOKEN is required", by simp [from_env, h1]⟩
    · by_cases h2 : pyFalsy (getenv env "DISCORD_APPLICATION_ID") = true
      · exact ⟨"DISCORD_APPLICATION_ID is required", by simp [from_env, h1, h2]⟩
      · exact ⟨"GITHUB_WEBHOOK_SECRET is required",
          by simp [from_env, h1, h2, hfalsy]⟩
  · intro cfg hok
    simp only [from_env] at hok
    split at hok
    · exact absurd hok (by simp)
    · split at hok
      · exact absurd hok (by simp)
      · split at hok
        · exact absurd hok (by simp)
        · rename_i hsec
          rw [Bool.not_eq_true] at hsec
          split at hok
          · exact absurd hok (by simp)
          · rw [Except.ok.injEq] at hok
            cases hgv : getenv env "GITHUB_WEBHOOK_SECRET" with
            | none => rw [hgv] at hsec; simp [pyFalsy] at hsec
            | some s =>
                rw [hgv] at hsec
                simp only [pyFalsy, beq_eq_false_iff_ne, ne_eq] at hsec
                have hws : cfg.webhook_secret = s := by
                  rw [← hok, hgv]
                  rfl
                rw [hws]
                exact ⟨rfl, hsec⟩

/-- Witness for C8: from_env errors when the secret is unset, and on a full
environment it reproduces the environment-supplied secret. -/
theorem from_env_secret_required_witness :
    (∃ e, from_env envNoSecret = Except.error e) ∧
    (getenv envGood "GITHUB_WEBHOOK_SECRET" = some cfgGood.webhook_secret ∧
      cfgGood.webhook_secret ≠ "") :=
  ⟨(from_env_secret_required envNoSecret).1 rfl,
   (from_env_secret_required envGood).2 cfgGood rfl⟩

/-- C9: truncate returns the text unchanged when it fits, and otherwise a
string of length exactly max_length ending in the suffix, provided the
suffix is no longer than max_length. -/
theorem truncate_spec (text suffix : String) (max_length : Nat)
    (hs : suffix.length ≤ max_length) :
    (text.length ≤ max_length → truncate text max_length suffix = text) ∧
    (max_length < text.length →
      (truncate text max_length suffix).length = max_length ∧
      ∃ front, truncate text max_length suffix = front ++ suffix) := by
  constructor
  · intro hle
    simp [truncate, hle]
  · intro hgt
    have hnle : ¬ text.length ≤ max_length := not_le.mpr hgt
    have htr : truncate text max_length suffix =
        pySliceTo text ((max_length : Int) - (suffix.length : Int)) ++ suffix := by
      simp [truncate, hnle]
    have hnn : (0 : Int) ≤ (max_length : Int) - (suffix.length : Int) := by
      omega
    have harg : ((max_length : Int) - (suffix.length : Int)).toNat
        = max_length - suffix.length := by omega
    have hslice : pySliceTo text ((max_length : Int) - (suffix.length : Int)) =
        ⟨text.data.take (max_length - suffix.length)⟩ := by
      rw [pySliceTo, if_pos hnn, harg]
    refine ⟨?_, ⟨_, htr⟩⟩
    rw [htr, hslice, String.length_append, String.length_mk, List.length_take]
    have h2 : text.length = text.data.length := rfl
    omega

/-- Witness for C9 at text "hello world", max_length 8, suffix "...". -/
theorem truncate_spec_witness :
    ("...".length ≤ 8) ∧
    (("hello world".length ≤ 8 →
        truncate "hello world" 8 "..." = "hello world") ∧
     (8 < "hello world".length →
        (truncate "hello world" 8 "...").length = 8 ∧
        ∃ front, truncate "hello world" 8 "..." = front ++ "...")) :=
  ⟨by decide, truncate_spec "hello world" "..." 8 (by decide)⟩

/-- C10: once get_config has succeeded, every later get_config call
returns the same configuration and leaves the cell unchanged, whatever the
environment has become in between: only reload_config re-reads it. -/
theorem get_config_init_once (env : Env) (cell : Option BotConfig)
    (c : BotConfig) (cell2 : Option BotConfig)
    (h : get_config env cell = (Except.ok c, cell2))
    (envs : List Env) (env2 : Env) :
    get_config env2 (get_config_iter envs cell2) = (Except.ok c, cell2) := by
  have hc2 : cell2 = some c := by
    cases cell with
    | some c0 =>
        simp only [get_config] at h
        rw [Prod.mk.injEq, Except.ok.injEq] at h
        rw [← h.2, h.1]
    | none =>
        cases hfe : from_env env with
        | error e =>
            simp only [get_config, hfe] at h
            exact absurd h (by simp)
        | ok c1 =>
            cases hv : validate c1 with
            | error e =>
                simp only [get_config, hfe, hv] at h
                exact absurd h (by simp)
            | ok u =>
                simp only [get_config, hfe, hv] at h
                rw [Prod.mk.injEq, Except.ok.injEq] at h
                rw [← h.2, h.1]
  subst hc2
  have hiter : get_config_iter envs (some c) = some c := by
    induction envs with
    | nil => rfl
    | cons e rest ih =>
        show get_config_iter rest (get_config e (some c)).2 = some c
        exact ih
  rw [hiter]
  rfl

/-- Witness for C10: after a first successful load from envGood, a later
call under the entirely different envOther still returns the envGood
configuration. -/
theorem get_config_init_once_witness :
    get_config envGood none = (Except.ok cfgGood, some cfgGood) ∧
    get_config envOther (get_config_iter [envOther] (some cfgGood)) =
      (Except.ok cfgGood, some cfgGood) :=
  ⟨rfl, get_config_init_once envGood none cfgGood (some cfgGood) rfl
    [envOther] envOther⟩

end DiscordBot
